import Mathlib

/-!
Verification development for the node-e-trade API client
(`src/e-trade-api.ts`).  The TypeScript source is shallowly embedded:
JavaScript values that flow through the request pipeline are modelled by
the inductive `JsValue`, axios request configurations by `RequestConfig`,
and the oauth-1.0a signing step by `authorize`, whose HMAC-SHA1 hash and
percent-encoding are modelled injectively: an `oauth_signature` value is
represented by the exact inputs the library hashes (method, url, body
data, oauth parameters, signing key), so two signatures are equal in the
model exactly when the library would hash identical base material.
-/

namespace ETradeSpec

/-- JavaScript runtime values as they appear in the client's request and
response plumbing: `undefined` and `null` mirror their JavaScript namesakes;
numbers are modelled as integers (no claim involves fractional values). -/
inductive JsValue : Type where
  | undefined : JsValue
  | null : JsValue
  | bool : Bool → JsValue
  | num : Int → JsValue
  | str : String → JsValue
  | arr : List JsValue → JsValue
  | obj : List (String × JsValue) → JsValue

/-- JavaScript truthiness of a value (objects and arrays are always
truthy; `0`, the empty string, `false`, `null` and `undefined` are falsy). -/
def truthy : JsValue → Bool
  | .undefined => false
  | .null => false
  | .bool b => b
  | .num n => n != 0
  | .str s => s != ""
  | .arr _ => true
  | .obj _ => true

/-- First-match lookup in a JavaScript object's field list. -/
def objLookup : List (String × JsValue) → String → Option JsValue
  | [], _ => none
  | (k, v) :: rest, key => if k = key then some v else objLookup rest key

/-- Errors the JavaScript runtime itself can raise inside the client. -/
inductive JsError : Type where
  | typeError : JsError
deriving Repr, DecidableEq

/-- JavaScript property access `v.key`: throws a TypeError on `null` or
`undefined`, yields the field on objects (or `undefined` when the key is
missing), and yields `undefined` on other primitives and on arrays (no
numeric indices are accessed by the client). -/
def getProp : JsValue → String → Except JsError JsValue
  | .undefined, _ => .error .typeError
  | .null, _ => .error .typeError
  | .obj fields, key => .ok ((objLookup fields key).getD .undefined)
  | _, _ => .ok .undefined

/-- Whether a value is `null` or `undefined`. -/
def nullish : JsValue → Bool
  | .undefined => true
  | .null => true
  | _ => false

/-- JavaScript optional chaining `v?.key`: `undefined` when `v` is
nullish, otherwise ordinary (non-throwing) property access. -/
def optChain (v : JsValue) (key : String) : JsValue :=
  match v with
  | .undefined => .undefined
  | .null => .undefined
  | .obj fields => (objLookup fields key).getD .undefined
  | _ => .undefined

/-- JavaScript `a || b`. -/
def jsOr (a b : JsValue) : JsValue := if truthy a then a else b

/-! ## Client settings (`ETradeOptions`, `ETrade.defaults`, constructor merge) -/

/-- The client mode; the source's string literals become constructors.
`dev` selects the sandbox base URL (`apisb.etrade.com`), `prod` the
production one, so `dev` is the "sandbox" mode of the documentation. -/
inductive Mode : Type where
  | dev : Mode
  | prod : Mode
deriving Repr, DecidableEq

/-- The `urls` block of `ETradeOptions`. -/
structure Urls where
  oauth : String
  prod : String
  dev : String
deriving Repr, DecidableEq

/-- Basic-auth credentials of a proxy descriptor. -/
structure ProxyAuth where
  username : String
  password : String
deriving Repr, DecidableEq

/-- A forward-proxy descriptor (`host`, `port`, optional `auth`). -/
structure ProxyConfig where
  host : String
  port : Int
  auth : Option ProxyAuth
deriving Repr, DecidableEq

/-- The `proxy` option: either the literal `false` (disabled) or a
proxy descriptor. -/
inductive ProxySetting : Type where
  | disabled : ProxySetting
  | proxy : ProxyConfig → ProxySetting
deriving Repr, DecidableEq

/-- The fully-populated `ETradeOptions` interface. -/
structure ETradeOptions where
  mode : Mode
  key : String
  secret : String
  accessToken : String
  accessSecret : String
  urls : Urls
  connectionLimit : Int
  connectionLimitPeriod : Int
  errorOnConnectionLimit : Bool
  proxy : ProxySetting
deriving Repr, DecidableEq

/-- A `Partial` view of the `urls` block, as the constructor accepts. -/
structure PartialUrls where
  oauth : Option String
  prod : Option String
  dev : Option String
deriving Repr, DecidableEq

/-- `Partial<ETradeOptions>`: every constructor option may be absent. -/
structure PartialETradeOptions where
  mode : Option Mode
  key : Option String
  secret : Option String
  accessToken : Option String
  accessSecret : Option String
  urls : Option PartialUrls
  connectionLimit : Option Int
  connectionLimitPeriod : Option Int
  errorOnConnectionLimit : Option Bool
  proxy : Option ProxySetting
deriving Repr, DecidableEq

/-- The empty options object (`new ETrade()` / `new ETrade({})`). -/
def emptyOptions : PartialETradeOptions :=
  ⟨none, none, none, none, none, none, none, none, none, none⟩

/-- `ETrade.defaults` from the source. -/
def defaults : ETradeOptions :=
  { mode := Mode.dev
    key := ""
    secret := ""
    accessToken := ""
    accessSecret := ""
    urls :=
      { oauth := "https://api.etrade.com/oauth/"
        prod := "https://api.etrade.com/v1/"
        dev := "https://apisb.etrade.com/v1/" }
    connectionLimit := 10
    connectionLimitPeriod := 1000
    errorOnConnectionLimit := false
    proxy := ProxySetting.disabled }

/-- deepmerge of the `urls` sub-object: plain nested mappings merge
key-by-key, the caller's (source) value winning where supplied. -/
def mergeUrls (base : Urls) (o : PartialUrls) : Urls :=
  { oauth := o.oauth.getD base.oauth
    prod := o.prod.getD base.prod
    dev := o.dev.getD base.dev }

/-- deepmerge of `ETrade.defaults` with the caller's partial options:
primitive leaves are replaced wholesale by the caller's value when
supplied, the nested `urls` mapping merges key-by-key, and a supplied
`proxy` descriptor replaces the default `false`. -/
def mergeOptions (base : ETradeOptions) (o : PartialETradeOptions) : ETradeOptions :=
  { mode := o.mode.getD base.mode
    key := o.key.getD base.key
    secret := o.secret.getD base.secret
    accessToken := o.accessToken.getD base.accessToken
    accessSecret := o.accessSecret.getD base.accessSecret
    urls :=
      match o.urls with
      | none => base.urls
      | some u => mergeUrls base.urls u
    connectionLimit := o.connectionLimit.getD base.connectionLimit
    connectionLimitPeriod := o.connectionLimitPeriod.getD base.connectionLimitPeriod
    errorOnConnectionLimit := o.errorOnConnectionLimit.getD base.errorOnConnectionLimit
    proxy := o.proxy.getD base.proxy }

/-- The constructor body `this.settings = merge(ETrade.defaults, options || {})`. -/
def settingsOf (options : PartialETradeOptions) : ETradeOptions :=
  mergeOptions defaults options

/-! ## The signing core (`signRequest` and the oauth-1.0a library) -/

/-- An access token pair as passed to `oauth.authorize`. -/
structure TokenPair where
  key : String
  secret : String
deriving Repr, DecidableEq

/-- The material the oauth-1.0a library hashes to produce the
`oauth_signature`: the uppercased method, the fully-joined URL, the
request `data` merged into the parameter set (absent when the caller
deleted it), the non-signature oauth parameters, and the signing key
`consumerSecret&tokenSecret`.  HMAC-SHA1 and percent-encoding are
modelled injectively by this record. -/
structure SignatureInput where
  method : String
  url : String
  data : Option JsValue
  oauthParams : List (String × String)
  signingKey : String

/-- A value stored in the axios `params` query map: either a plain
string or a computed oauth signature. -/
inductive ParamValue : Type where
  | str : String → ParamValue
  | sig : SignatureInput → ParamValue

/-- The oauth parameters other than the signature, in the insertion
order `oauth-1.0a` uses; `oauth_token` is present exactly when a token
object (even one with an empty key) was supplied. -/
def oauthBaseParams (consumerKey nonce ts : String) (token : Option TokenPair) :
    List (String × String) :=
  [("oauth_consumer_key", consumerKey),
   ("oauth_nonce", nonce),
   ("oauth_signature_method", "HMAC-SHA1"),
   ("oauth_timestamp", ts),
   ("oauth_version", "1.0")] ++
  (match token with
   | some t => [("oauth_token", t.key)]
   | none => [])

/-- The object returned by `oauth.authorize(request, token)`. -/
structure Authorization where
  oauth_consumer_key : String
  oauth_nonce : String
  oauth_signature_method : String
  oauth_timestamp : String
  oauth_version : String
  oauth_token : Option String
  oauth_signature : SignatureInput

/-- `oauth.authorize` of the oauth-1.0a library, for the client's
HMAC-SHA1 configuration.  `nonce` and `ts` stand for the library's
random nonce and current Unix timestamp (injected for determinism).
With no token the signing key degenerates to `consumerSecret&`. -/
def authorize (consumerKey consumerSecret method url : String) (data : Option JsValue)
    (token : Option TokenPair) (nonce ts : String) : Authorization :=
  { oauth_consumer_key := consumerKey
    oauth_nonce := nonce
    oauth_signature_method := "HMAC-SHA1"
    oauth_timestamp := ts
    oauth_version := "1.0"
    oauth_token := token.map (fun t => t.key)
    oauth_signature :=
      { method := method
        url := url
        data := data
        oauthParams := oauthBaseParams consumerKey nonce ts token
        signingKey :=
          consumerSecret ++ "&" ++
            (match token with
             | some t => t.secret
             | none => "") } }

/-- `Object.keys(authorization)` paired with the values, in JavaScript
insertion order. -/
def Authorization.toParams (a : Authorization) : List (String × ParamValue) :=
  [("oauth_consumer_key", ParamValue.str a.oauth_consumer_key),
   ("oauth_nonce", ParamValue.str a.oauth_nonce),
   ("oauth_signature_method", ParamValue.str a.oauth_signature_method),
   ("oauth_timestamp", ParamValue.str a.oauth_timestamp),
   ("oauth_version", ParamValue.str a.oauth_version)] ++
  (match a.oauth_token with
   | some t => [("oauth_token", ParamValue.str t)]
   | none => []) ++
  [("oauth_signature", ParamValue.sig a.oauth_signature)]

/-- An axios request configuration as the client populates it.  The
`params` map is `none` until `signRequest` creates it (mirroring the
`if(!request.params)` guard in the source). -/
structure RequestConfig where
  method : String
  baseURL : Option String
  url : Option String
  headers : List (String × String)
  params : Option (List (String × ParamValue))
  data : Option JsValue
  proxy : ProxySetting

/-- The request fields an endpoint wrapper passes to `getBasicRequest`
(no wrapper ever supplies `baseURL`, `headers`, or `params`). -/
structure RequestInit where
  method : Option String
  url : Option String
  data : Option JsValue

/-- The `User-Agent` header value; the package and node versions it
interpolates are irrelevant to every claim and are held abstract in this
one constant. -/
def userAgent : String := "node-e-trade/v_ nodejs/_"

/-- The mode-selected base URL (`mode === 'prod' ? urls.prod : urls.dev`). -/
def modeBaseURL (s : ETradeOptions) : String :=
  if s.mode = Mode.prod then s.urls.prod else s.urls.dev

/-- `getBasicRequest`: deep-merges the client-default request (GET, the
mode-selected base URL, standard headers, the proxy setting) with the
endpoint's request fields, the endpoint's values winning. -/
def getBasicRequest (s : ETradeOptions) (init : RequestInit) : RequestConfig :=
  { method := init.method.getD ("GET")
    baseURL := some (modeBaseURL s)
    url := init.url
    headers := [("User-Agent", userAgent)]
    params := none
    data := init.data
    proxy := s.proxy }

/-- The `token` argument of `signRequest`: absent, a boolean, or an
explicit key/secret object. -/
inductive TokenArg : Type where
  | missing : TokenArg
  | bool : Bool → TokenArg
  | pair : String → String → TokenArg
deriving Repr, DecidableEq

/-- Token resolution in `signRequest`: `undefined` and `true` select the
client's stored access token pair, `false` selects unauthenticated
signing, and an explicit pair is used as given. -/
def resolveToken (s : ETradeOptions) : TokenArg → Option TokenPair
  | TokenArg.missing => some ⟨s.accessToken, s.accessSecret⟩
  | TokenArg.bool true => some ⟨s.accessToken, s.accessSecret⟩
  | TokenArg.bool false => none
  | TokenArg.pair k sec => some ⟨k, sec⟩

/-- JavaScript `key.startsWith(pre)` (structurally recursive so that
concrete instances reduce definitionally). -/
def jsStartsWith (s pre : String) : Bool :=
  pre.data.isPrefixOf s.data

/-- JavaScript map assignment `params[key] = v`: replaces an existing
entry in place, otherwise appends at the end. -/
def setParam : List (String × ParamValue) → String → ParamValue → List (String × ParamValue)
  | [], key, v => [(key, v)]
  | (k, w) :: rest, key, v =>
    if k = key then (key, v) :: rest else (k, w) :: setParam rest key v

/-- `signRequest(request, token, omit)`.  The source deep-copies the
request (`merge({}, request)`), joins `baseURL` and `url` on the copy,
deletes the copy's `data` when `omit` is set, and hands the copy to
`oauth.authorize`; it then merges the authorization parameters into the
original request's `params` (creating `params` when absent), keeping in
omit mode only the keys starting with `oauth`.  Only `params` of the
original request changes. -/
def signRequest (s : ETradeOptions) (request : RequestConfig) (token : TokenArg)
    (omitBody : Bool) (nonce ts : String) : RequestConfig :=
  let signedUrl := (request.baseURL.getD ("")) ++ (request.url.getD (""))
  let tk := resolveToken s token
  let signData := if omitBody then none else request.data
  let auth := authorize s.key s.secret request.method signedUrl signData tk nonce ts
  let newParams :=
    (auth.toParams.filter (fun kv => !omitBody || jsStartsWith kv.1 ("oauth"))).foldl
      (fun ps kv => setParam ps kv.1 kv.2) (request.params.getD [])
  { request with params := some newParams }

/-- Assoc lookup in a `params` map. -/
def paramLookup : List (String × ParamValue) → String → Option ParamValue
  | [], _ => none
  | (k, v) :: rest, key => if k = key then some v else paramLookup rest key

/-- The `oauth_signature` entry of a request's query parameters. -/
def requestSignature (r : RequestConfig) : Option ParamValue :=
  paramLookup (r.params.getD []) ("oauth_signature")

/-- The body-data component of a signature parameter: `some d` when the
parameter is a signature whose input carried `d` as its `data`. -/
def signatureData : Option ParamValue → Option (Option JsValue)
  | some (ParamValue.sig i) => some i.data
  | _ => none

/-! ## Endpoint layer: request builders

Each `...Request` definition is the body of the corresponding endpoint
method up to (and including) its `signRequest` call: the request
configuration the method passes to `this.request`, i.e. what is
transmitted.  Arguments mirror the TypeScript signatures;
`string | number` arguments (such as `clientOrderId`) and order payloads
are taken as `JsValue`. -/

/-- Optional string field inclusion guarded by `if(x)` (JavaScript
truthiness: absent or empty strings are skipped). -/
def strField (name : String) : Option String → List (String × JsValue)
  | none => []
  | some v => if v = "" then [] else [(name, JsValue.str v)]

/-- Optional numeric field inclusion guarded by `if(x)` (JavaScript
truthiness: absent or zero numbers are skipped). -/
def numField (name : String) : Option Int → List (String × JsValue)
  | none => []
  | some n => if n = 0 then [] else [(name, JsValue.num n)]

/-- Optional numeric field inclusion guarded by `!== undefined` (zero is
kept). -/
def numFieldDefined (name : String) : Option Int → List (String × JsValue)
  | none => []
  | some n => [(name, JsValue.num n)]

/-- `cancelOrder`. -/
def cancelOrderRequest (s : ETradeOptions) (nonce ts accountIdKey : String)
    (orderId : Int) : RequestConfig :=
  signRequest s
    (getBasicRequest s
      ⟨some ("PUT"),
       some ("accounts/" ++ accountIdKey ++ "/orders/cancel.json"),
       some (JsValue.obj
         [("CancelOrderRequest", JsValue.obj [("orderId", JsValue.num orderId)])])⟩)
    TokenArg.missing true nonce ts

/-- The `PreviewOrderRequest` body shared by `previewOrder` and
`changePreviewedOrder`. -/
def previewOrderBody (orderType : String) (clientOrderId order : JsValue) : JsValue :=
  JsValue.obj
    [("PreviewOrderRequest", JsValue.obj
      [("orderType", JsValue.str orderType),
       ("clientOrderId", clientOrderId),
       ("Order", order)])]

/-- `changePreviewedOrder`. -/
def changePreviewedOrderRequest (s : ETradeOptions) (nonce ts accountIdKey : String)
    (orderId : Int) (orderType : String) (clientOrderId order : JsValue) : RequestConfig :=
  signRequest s
    (getBasicRequest s
      ⟨some ("PUT"),
       some ("accounts/" ++ accountIdKey ++ "/orders/" ++ toString orderId ++ "/change/preview.json"),
       some (previewOrderBody orderType clientOrderId order)⟩)
    TokenArg.missing true nonce ts

/-- `deleteAlert` (a single id or a comma-joined list). -/
def deleteAlertRequest (s : ETradeOptions) (nonce ts : String)
    (alertId : Sum Int (List Int)) : RequestConfig :=
  signRequest s
    (getBasicRequest s
      ⟨some ("DELETE"),
       some ("user/alerts/" ++
         (match alertId with
          | Sum.inl n => toString n
          | Sum.inr ns => String.intercalate (",") (ns.map toString)) ++ ".json"),
       none⟩)
    TokenArg.missing false nonce ts

/-- `getAccountBalances`. -/
def getAccountBalancesRequest (s : ETradeOptions) (nonce ts accountIdKey : String)
    (accountType : Option String) (instType : String) (realTimeNAV : Bool) : RequestConfig :=
  signRequest s
    (getBasicRequest s
      ⟨none,
       some ("accounts/" ++ accountIdKey ++ "/balance.json"),
       some (JsValue.obj
         ([("instType", JsValue.str instType),
           ("realTimeNAV", JsValue.bool realTimeNAV)] ++
          strField ("accountType") accountType))⟩)
    TokenArg.missing false nonce ts

/-- `getOptionChains`. -/
def getOptionChainsRequest (s : ETradeOptions) (nonce ts symbol : String)
    (expiryYear expiryMonth expiryDay strikePriceNear noOfStrikes : Option Int)
    (includeWeekly skipAdjusted : Bool)
    (optionCategory chainType priceType : String) : RequestConfig :=
  signRequest s
    (getBasicRequest s
      ⟨none,
       some ("market/optionchains.json"),
       some (JsValue.obj
         ([("symbol", JsValue.str symbol),
           ("includeWeekly", JsValue.bool includeWeekly),
           ("skipAdjusted", JsValue.bool skipAdjusted),
           ("optionCategory", JsValue.str optionCategory),
           ("chainType", JsValue.str chainType),
           ("priceType", JsValue.str priceType)] ++
          numField ("expiryYear") expiryYear ++
          numField ("expiryMonth") expiryMonth ++
          numField ("expiryDay") expiryDay ++
          numFieldDefined ("strikePriceNear") strikePriceNear ++
          numFieldDefined ("noOfStrikes") noOfStrikes))⟩)
    TokenArg.missing false nonce ts

/-- `getOptionExpireDates`. -/
def getOptionExpireDatesRequest (s : ETradeOptions) (nonce ts symbol : String)
    (expiryType : Option String) : RequestConfig :=
  signRequest s
    (getBasicRequest s
      ⟨none,
       some ("market/optionexpiredate.json"),
       some (JsValue.obj
         ([("symbol", JsValue.str symbol)] ++ strField ("expiryType") expiryType))⟩)
    TokenArg.missing false nonce ts

/-- The `symbols` argument of `getQuotes`: a single string or an array. -/
inductive Symbols : Type where
  | one : String → Symbols
  | many : List String → Symbols
deriving Repr, DecidableEq

/-- `typeof(symbols) === 'string' ? symbols : symbols.join(',')`. -/
def symbolsPath : Symbols → String
  | Symbols.one s => s
  | Symbols.many ss => String.intercalate (",") ss

/-- `getQuotes`. -/
def getQuotesRequest (s : ETradeOptions) (nonce ts : String) (symbols : Symbols)
    (detailFlag : Option String)
    (requireEarningsDate overrideSymbolCount skipMiniOptionsCheck : Bool) : RequestConfig :=
  signRequest s
    (getBasicRequest s
      ⟨none,
       some ("market/quote/" ++ symbolsPath symbols ++ ".json"),
       some (JsValue.obj
         ([("requireEarningsDate", JsValue.bool requireEarningsDate),
           ("overrideSymbolCount", JsValue.bool overrideSymbolCount),
           ("skipMiniOptionsCheck", JsValue.bool skipMiniOptionsCheck)] ++
          strField ("detailFlag") detailFlag))⟩)
    TokenArg.missing false nonce ts

/-- `listAccounts`. -/
def listAccountsRequest (s : ETradeOptions) (nonce ts : String) : RequestConfig :=
  signRequest s
    (getBasicRequest s ⟨none, some ("accounts/list.json"), none⟩)
    TokenArg.missing false nonce ts

/-- `listAlertDetails`. -/
def listAlertDetailsRequest (s : ETradeOptions) (nonce ts : String)
    (alertId : Int) (htmlTags : Bool) : RequestConfig :=
  signRequest s
    (getBasicRequest s
      ⟨none,
       some ("user/alerts/" ++ toString alertId ++ ".json"),
       some (JsValue.obj [("htmlTags", JsValue.bool htmlTags)])⟩)
    TokenArg.missing false nonce ts

/-- The optional filter object of `listAlerts`. -/
structure ListAlertsReq where
  count : Option Int
  category : Option String
  status : Option String
  direction : Option String
  search : Option String
deriving Repr, DecidableEq

/-- `listAlerts`. -/
def listAlertsRequest (s : ETradeOptions) (nonce ts : String)
    (options : Option ListAlertsReq) : RequestConfig :=
  signRequest s
    (getBasicRequest s
      ⟨none,
       some ("user/alerts.json"),
       some (JsValue.obj
         (match options with
          | none => []
          | some o =>
            numField ("count") o.count ++
            strField ("category") o.category ++
            strField ("status") o.status ++
            strField ("direction") o.direction ++
            strField ("search") o.search))⟩)
    TokenArg.missing false nonce ts

/-- The argument object of `listOrders`. -/
structure ListOrdersReq where
  accountIdKey : String
  marker : Option String
  count : Option Int
  status : Option String
  fromDate : Option String
  toDate : Option String
  symbol : Option String
  securityType : Option String
  transactionType : Option String
  marketSession : Option String
deriving Repr, DecidableEq

/-- `listOrders`. -/
def listOrdersRequest (s : ETradeOptions) (nonce ts : String)
    (o : ListOrdersReq) : RequestConfig :=
  signRequest s
    (getBasicRequest s
      ⟨none,
       some ("accounts/" ++ o.accountIdKey ++ "/orders.json"),
       some (JsValue.obj
         (strField ("marker") o.marker ++
          numField ("count") o.count ++
          strField ("status") o.status ++
          strField ("fromDate") o.fromDate ++
          strField ("toDate") o.toDate ++
          strField ("symbol") o.symbol ++
          strField ("securityType") o.securityType ++
          strField ("transactionType") o.transactionType ++
          strField ("marketSession") o.marketSession))⟩)
    TokenArg.missing false nonce ts

/-- `listOrderDetails`. -/
def listOrderDetailsRequest (s : ETradeOptions) (nonce ts accountIdKey : String)
    (orderId : Int) : RequestConfig :=
  signRequest s
    (getBasicRequest s
      ⟨none,
       some ("accounts/" ++ accountIdKey ++ "/orders/" ++ toString orderId ++ ".json"),
       none⟩)
    TokenArg.missing false nonce ts

/-- `listTransactionDetails`. -/
def listTransactionDetailsRequest (s : ETradeOptions) (nonce ts accountIdKey : String)
    (transactionId : Int) (storeId : Option String) : RequestConfig :=
  signRequest s
    (getBasicRequest s
      ⟨none,
       some ("accounts/" ++ accountIdKey ++ "/transactions/" ++ toString transactionId ++ ".json"),
       some (JsValue.obj (strField ("storeId") storeId))⟩)
    TokenArg.missing false nonce ts

/-- `listTransactions`. -/
def listTransactionsRequest (s : ETradeOptions) (nonce ts accountIdKey : String)
    (startDate endDate sortOrder marker : Option String)
    (count : Option Int) : RequestConfig :=
  signRequest s
    (getBasicRequest s
      ⟨none,
       some ("accounts/" ++ accountIdKey ++ "/transactions.json"),
       some (JsValue.obj
         (strField ("startDate") startDate ++
          strField ("endDate") endDate ++
          strField ("sortOrder") sortOrder ++
          strField ("marker") marker ++
          numField ("count") count))⟩)
    TokenArg.missing false nonce ts

/-- `lookupProduct`. -/
def lookupProductRequest (s : ETradeOptions) (nonce ts search : String) : RequestConfig :=
  signRequest s
    (getBasicRequest s ⟨none, some ("market/lookup/" ++ search ++ ".json"), none⟩)
    TokenArg.missing false nonce ts

/-- The `PlaceOrderRequest` body shared by `placeOrder` and
`placeChangedOrder`. -/
def placeOrderBody (orderType : String) (clientOrderId order previewIds : JsValue) : JsValue :=
  JsValue.obj
    [("PlaceOrderRequest", JsValue.obj
      [("orderType", JsValue.str orderType),
       ("clientOrderId", clientOrderId),
       ("Order", order),
       ("PreviewIds", previewIds)])]

/-- `placeChangedOrder`. -/
def placeChangedOrderRequest (s : ETradeOptions) (nonce ts accountIdKey : String)
    (orderId : Int) (orderType : String)
    (clientOrderId order previewIds : JsValue) : RequestConfig :=
  signRequest s
    (getBasicRequest s
      ⟨some ("PUT"),
       some ("accounts/" ++ accountIdKey ++ "/orders/" ++ toString orderId ++ "/change/place.json"),
       some (placeOrderBody orderType clientOrderId order previewIds)⟩)
    TokenArg.missing true nonce ts

/-- `placeOrder`. -/
def placeOrderRequest (s : ETradeOptions) (nonce ts accountIdKey : String)
    (orderType : String) (clientOrderId order previewIds : JsValue) : RequestConfig :=
  signRequest s
    (getBasicRequest s
      ⟨some ("POST"),
       some ("accounts/" ++ accountIdKey ++ "/orders/place.json"),
       some (placeOrderBody orderType clientOrderId order previewIds)⟩)
    TokenArg.missing true nonce ts

/-- `previewOrder`. -/
def previewOrderRequest (s : ETradeOptions) (nonce ts accountIdKey : String)
    (orderType : String) (clientOrderId order : JsValue) : RequestConfig :=
  signRequest s
    (getBasicRequest s
      ⟨some ("POST"),
       some ("accounts/" ++ accountIdKey ++ "/orders/preview.json"),
       some (previewOrderBody orderType clientOrderId order)⟩)
    TokenArg.missing true nonce ts

/-- `viewLotsDetails`. -/
def viewLotsDetailsRequest (s : ETradeOptions) (nonce ts accountIdKey : String)
    (positionId : Int) : RequestConfig :=
  signRequest s
    (getBasicRequest s
      ⟨none,
       some ("accounts/" ++ accountIdKey ++ "/portfolio/" ++ toString positionId ++ ".json"),
       none⟩)
    TokenArg.missing false nonce ts

/-- `viewPortfolio`. -/
def viewPortfolioRequest (s : ETradeOptions) (nonce ts accountIdKey : String)
    (count : Option Int) (sortBy : Option String)
    (sortOrder marketSession : String) (totalsRequired lotsRequired : Bool)
    (view : String) : RequestConfig :=
  signRequest s
    (getBasicRequest s
      ⟨none,
       some ("accounts/" ++ accountIdKey ++ "/portfolio.json"),
       some (JsValue.obj
         ([("sortOrder", JsValue.str sortOrder),
           ("marketSession", JsValue.str marketSession),
           ("totalsRequired", JsValue.bool totalsRequired),
           ("lotsRequired", JsValue.bool lotsRequired),
           ("view", JsValue.str view)] ++
          numField ("count") count ++
          strField ("sortBy") sortBy))⟩)
    TokenArg.missing false nonce ts

/-! ## OAuth endpoint methods -/

/-- `requestToken`'s request: starts from the basic request, deletes the
mode-selected `baseURL`, targets the fixed OAuth base URL, carries the
body `oauth_callback=oob`, and is signed with `token === false`
(unauthenticated signing). -/
def requestTokenRequest (s : ETradeOptions) (nonce ts : String) : RequestConfig :=
  let base := getBasicRequest s ⟨none, none, none⟩
  let req := { base with
    baseURL := none
    url := some (s.urls.oauth ++ "request_token")
    data := some (JsValue.obj [("oauth_callback", JsValue.str ("oob"))]) }
  signRequest s req (TokenArg.bool false) false nonce ts

/-- `getAccessToken`'s request: fixed OAuth base URL, body
`oauth_verifier=code`, signed with the caller-supplied request-token
pair. -/
def getAccessTokenRequest (s : ETradeOptions) (nonce ts key secret code : String) : RequestConfig :=
  let base := getBasicRequest s ⟨none, none, none⟩
  let req := { base with
    baseURL := none
    url := some (s.urls.oauth ++ "access_token")
    data := some (JsValue.obj [("oauth_verifier", JsValue.str code)]) }
  signRequest s req (TokenArg.pair key secret) false nonce ts

/-- `renewAccessToken`'s request. -/
def renewAccessTokenRequest (s : ETradeOptions) (nonce ts key secret : String) : RequestConfig :=
  let base := getBasicRequest s ⟨none, none, none⟩
  let req := { base with
    baseURL := none
    url := some (s.urls.oauth ++ "renew_access_token") }
  signRequest s req (TokenArg.pair key secret) false nonce ts

/-- `revokeAccessToken`'s request. -/
def revokeAccessTokenRequest (s : ETradeOptions) (nonce ts key secret : String) : RequestConfig :=
  let base := getBasicRequest s ⟨none, none, none⟩
  let req := { base with
    baseURL := none
    url := some (s.urls.oauth ++ "revoke_access_token") }
  signRequest s req (TokenArg.pair key secret) false nonce ts

/-! ## Query-string responses of the OAuth endpoints -/

/-- A value produced by node's `querystring.parse`: a string, or an
array of strings for a repeated key. -/
inductive QSVal : Type where
  | one : String → QSVal
  | many : List String → QSVal
deriving Repr, DecidableEq

/-- Lookup of a parsed query-string field; `none` is JavaScript
`undefined` (field absent). -/
def qsLookup : List (String × QSVal) → String → Option QSVal
  | [], _ => none
  | (k, v) :: rest, key => if k = key then some v else qsLookup rest key

/-- JavaScript string coercion `'' + x` (and `template ${x}`) of a
parsed query-string field: an absent field becomes the string
`undefined`, an array joins with commas. -/
def qsCoerce : Option QSVal → String
  | none => "undefined"
  | some (QSVal.one s) => s
  | some (QSVal.many ss) => String.intercalate (",") ss

/-- The object `requestToken` resolves to. -/
structure RequestTokenResponse where
  oauth_token : String
  oauth_token_secret : String
  oauth_callback_confirmed : Bool
  url : String
deriving Repr, DecidableEq

/-- The result construction of `requestToken` from the parsed
query-string body `results`. -/
def requestTokenResult (s : ETradeOptions) (results : List (String × QSVal)) :
    RequestTokenResponse :=
  { oauth_token := qsCoerce (qsLookup results ("oauth_token"))
    oauth_token_secret := qsCoerce (qsLookup results ("oauth_token_secret"))
    oauth_callback_confirmed :=
      decide (qsLookup results ("oauth_callback_confirmed")
        = some (QSVal.one ("true")))
    url := "https://us.etrade.com/e/t/etws/authorize?key=" ++ s.key ++
      "&token=" ++ qsCoerce (qsLookup results ("oauth_token")) }

/-- The object `getAccessToken` resolves to (exactly two string
fields). -/
structure GetAccessTokenResponse where
  oauth_token : String
  oauth_token_secret : String
deriving Repr, DecidableEq

/-- The result construction of `getAccessToken` from the parsed
query-string body `results`. -/
def getAccessTokenResult (results : List (String × QSVal)) : GetAccessTokenResponse :=
  { oauth_token := qsCoerce (qsLookup results ("oauth_token"))
    oauth_token_secret := qsCoerce (qsLookup results ("oauth_token_secret")) }

/-! ## The dispatcher's catch block (`request`) -/

/-- An HTTP response attached to a failed axios request
(`err.response`). -/
structure HttpResponse where
  status : Int
  statusText : String
  data : JsValue

/-- The normalized error built by the catch block (`new
Error(statusText)` plus `code` and `raw`); `message` and `code` hold
whatever JavaScript values the assignments produce. -/
structure NormalizedErr where
  message : JsValue
  code : JsValue
  raw : JsValue

/-- The body of the catch block after `if(err.response)` is entered:
`message` starts as the status line and `code` as the HTTP status; a
truthy `data.Error` overwrites `message` with `Error.message` and, when
`Error.code` is truthy, `code` with `Error.code`; `raw` is the response
body.  Accessing `.Error` on a `null` body raises a TypeError. -/
def normalizeResponseError (resp : HttpResponse) : Except JsError NormalizedErr :=
  match getProp resp.data ("Error") with
  | .error j => .error j
  | .ok errField =>
    if truthy errField then
      match getProp errField ("code"), getProp errField ("message") with
      | .ok c, .ok m =>
        .ok { message := m
              code := if truthy c then c else JsValue.num resp.status
              raw := resp.data }
      | .error j, _ => .error j
      | .ok _, .error j => .error j
    else
      .ok { message := JsValue.str resp.statusText
            code := JsValue.num resp.status
            raw := resp.data }

/-- The error a failed axios request rejects with: a message and,
when an HTTP response was obtained, that response. -/
structure TransportError where
  message : String
  response : Option HttpResponse

/-- What the dispatcher's catch block ends up throwing. -/
inductive CaughtResult : Type where
  | rethrow : TransportError → CaughtResult
  | normalized : NormalizedErr → CaughtResult
  | crash : JsError → CaughtResult

/-- The catch block of `request`: with no `err.response` the original
transport error is rethrown unmodified; with a response the normalized
error replaces it (or the handler itself crashes on a `null` body). -/
def handleCatch (err : TransportError) : CaughtResult :=
  match err.response with
  | none => CaughtResult.rethrow err
  | some resp =>
    match normalizeResponseError resp with
    | .ok e => CaughtResult.normalized e
    | .error j => CaughtResult.crash j

/-! ## Response unwrapping (`viewPortfolio` vs `listAccounts`) -/

/-- The return expression of `viewPortfolio`:
`response?.PortfolioResponse?.AccountPortfolio || ` the empty object. -/
def viewPortfolioUnwrap (response : JsValue) : JsValue :=
  jsOr (optChain (optChain response ("PortfolioResponse")) ("AccountPortfolio"))
    (JsValue.obj [])

/-- The return expression of `listAccounts`:
`response.AccountListResponse.Accounts.Account`, with plain property
accesses that throw on nullish intermediates. -/
def listAccountsUnwrap (response : JsValue) : Except JsError JsValue :=
  match getProp response ("AccountListResponse") with
  | .error j => .error j
  | .ok a =>
    match getProp a ("Accounts") with
    | .error j => .error j
    | .ok b => getProp b ("Account")

/-! ## Concrete fixtures -/

/-- The key list of the oauth authorization parameter set, in insertion
order, for an authorize call that received a token object. -/
def oauthKeys : List String :=
  ["oauth_consumer_key", "oauth_nonce", "oauth_signature_method",
   "oauth_timestamp", "oauth_version", "oauth_token", "oauth_signature"]

/-- A concrete sandbox-mode client: every constructor option defaulted. -/
def sandboxClient : ETradeOptions := settingsOf emptyOptions

/-- A concrete omit-mode `previewOrder` dispatch on the sandbox client. -/
def previewSample : RequestConfig :=
  previewOrderRequest sandboxClient ("nonce1") ("1600000000") ("acct1") ("EQ")
    (JsValue.str ("42")) (JsValue.arr [])

/-- A concrete `getQuotes` dispatch on the sandbox client for the
symbols TSLA and GOOG, all optional arguments defaulted. -/
def quotesSample : RequestConfig :=
  getQuotesRequest sandboxClient ("nonce1") ("1600000000")
    (Symbols.many (["TSLA", "GOOG"])) none false false false

/-! ## Helper lemmas about the JavaScript value model -/

theorem optChain_nullish (v : JsValue) (k : String) (h : nullish v = true) :
    optChain v k = JsValue.undefined := by
  cases v <;> first | rfl | simp [nullish] at h

theorem nullish_optChain (v : JsValue) (k : String) (h : nullish v = true) :
    nullish (optChain v k) = true := by
  rw [optChain_nullish v k h]; rfl

theorem jsOr_nullish (v y : JsValue) (h : nullish v = true) : jsOr v y = y := by
  cases v <;> first | rfl | simp [nullish] at h

theorem getProp_nullish (v : JsValue) (k : String) (h : nullish v = true) :
    getProp v k = Except.error JsError.typeError := by
  cases v <;> first | rfl | simp [nullish] at h

theorem getProp_not_nullish (v : JsValue) (k : String) (h : nullish v = false) :
    getProp v k = Except.ok (optChain v k) := by
  cases v <;> first | rfl | simp [nullish] at h

theorem truthy_not_nullish (v : JsValue) (h : truthy v = true) : nullish v = false := by
  cases v <;> simp_all [truthy, nullish]

/-! ## Claim theorems -/

/-- C4: a dispatched request that fails without any HTTP response
(network-level failure) propagates the underlying transport error
unmodified: the catch block rethrows the very same error value, adding
no `code` or `raw` fields and applying no normalization. -/
theorem network_failure_passthrough (err : TransportError) (h : err.response = none) :
    handleCatch err = CaughtResult.rethrow err := by
  unfold handleCatch
  rw [h]

/-- Witness for `network_failure_passthrough` at a concrete
connection-refused error. -/
theorem network_failure_passthrough_witness :
    handleCatch ⟨"connect ECONNREFUSED", none⟩
      = CaughtResult.rethrow ⟨"connect ECONNREFUSED", none⟩ :=
  network_failure_passthrough ⟨"connect ECONNREFUSED", none⟩ rfl

/-- C5: the constructed settings are the deep merge of `ETrade.defaults`
with the caller's partial options, caller-supplied values winning:
`mode` defaults to `dev` (the sandbox mode), `accessToken` and
`accessSecret` to the empty string, `connectionLimit` to 10,
`connectionLimitPeriod` to 1000 ms, `errorOnConnectionLimit` to `false`,
and `proxy` to disabled; the nested `urls` block merges key-by-key, and
the wholly-defaulted constructor call yields exactly `ETrade.defaults`. -/
theorem constructor_defaults_merge (o : PartialETradeOptions) :
    (settingsOf o).mode = o.mode.getD Mode.dev ∧
    (settingsOf o).key = o.key.getD ("") ∧
    (settingsOf o).secret = o.secret.getD ("") ∧
    (settingsOf o).accessToken = o.accessToken.getD ("") ∧
    (settingsOf o).accessSecret = o.accessSecret.getD ("") ∧
    (settingsOf o).connectionLimit = o.connectionLimit.getD 10 ∧
    (settingsOf o).connectionLimitPeriod = o.connectionLimitPeriod.getD 1000 ∧
    (settingsOf o).errorOnConnectionLimit = o.errorOnConnectionLimit.getD false ∧
    (settingsOf o).proxy = o.proxy.getD ProxySetting.disabled ∧
    (settingsOf o).urls = mergeUrls defaults.urls (o.urls.getD ⟨none, none, none⟩) ∧
    settingsOf emptyOptions = defaults := by
  refine ⟨rfl, rfl, rfl, rfl, rfl, rfl, rfl, rfl, rfl, ?_, rfl⟩
  cases h : o.urls <;> simp [settingsOf, mergeOptions, mergeUrls, h]

/-- C8: `signRequest` changes only the `params` field of the request it
is given: `method`, `baseURL`, `url`, `headers`, `data` and `proxy` are
returned unchanged (in omit mode the body deletion happens only on the
copy handed to `oauth.authorize`, whose signature input carries no
`data`, while the transmitted request keeps its body); `params` becomes
the previous map (created empty when absent) with the authorization
parameters merged in. -/
theorem signRequest_frame (s : ETradeOptions) (r : RequestConfig) (token : TokenArg)
    (omitBody : Bool) (nonce ts : String) :
    (signRequest s r token omitBody nonce ts).method = r.method ∧
    (signRequest s r token omitBody nonce ts).baseURL = r.baseURL ∧
    (signRequest s r token omitBody nonce ts).url = r.url ∧
    (signRequest s r token omitBody nonce ts).headers = r.headers ∧
    (signRequest s r token omitBody nonce ts).data = r.data ∧
    (signRequest s r token omitBody nonce ts).proxy = r.proxy ∧
    (signRequest s r token omitBody nonce ts).params = some
      (((authorize s.key s.secret r.method ((r.baseURL.getD ("")) ++ (r.url.getD ("")))
            (if omitBody then none else r.data) (resolveToken s token) nonce ts).toParams.filter
          (fun kv => !omitBody || jsStartsWith kv.1 ("oauth"))).foldl
        (fun ps kv => setParam ps kv.1 kv.2) (r.params.getD [])) :=
  ⟨rfl, rfl, rfl, rfl, rfl, rfl, rfl⟩

/-- C9: `viewPortfolio` never throws on a missing unwrap path — when the
response, its `PortfolioResponse` field, or its `AccountPortfolio` field
is null or undefined it resolves with the empty object — whereas
`listAccounts` throws a TypeError when an intermediate field of its
unwrap path (`AccountListResponse`, `Accounts`) is nullish or the
response itself is. -/
theorem unwrap_missing_path_contrast (r q : JsValue) :
    ((nullish r = true ∨ nullish (optChain r ("PortfolioResponse")) = true ∨
        nullish (optChain (optChain r ("PortfolioResponse")) ("AccountPortfolio")) = true) →
      viewPortfolioUnwrap r = JsValue.obj []) ∧
    ((nullish q = true ∨ nullish (optChain q ("AccountListResponse")) = true ∨
        nullish (optChain (optChain q ("AccountListResponse")) ("Accounts")) = true) →
      listAccountsUnwrap q = Except.error JsError.typeError) := by
  constructor
  · intro h
    have key : nullish (optChain (optChain r ("PortfolioResponse")) ("AccountPortfolio")) = true := by
      rcases h with h | h | h
      · exact nullish_optChain _ _ (nullish_optChain _ _ h)
      · exact nullish_optChain _ _ h
      · exact h
    unfold viewPortfolioUnwrap
    exact jsOr_nullish _ _ key
  · intro h
    by_cases hq : nullish q = true
    · unfold listAccountsUnwrap
      rw [getProp_nullish q _ hq]
    · simp only [Bool.not_eq_true] at hq
      by_cases ha : nullish (optChain q ("AccountListResponse")) = true
      · simp only [listAccountsUnwrap, getProp_not_nullish q _ hq, getProp_nullish _ _ ha]
      · simp only [Bool.not_eq_true] at ha
        have hb : nullish (optChain (optChain q ("AccountListResponse")) ("Accounts")) = true := by
          rcases h with h | h | h
          · rw [hq] at h; exact absurd h (by simp)
          · rw [ha] at h; exact absurd h (by simp)
          · exact h
        simp only [listAccountsUnwrap, getProp_not_nullish q _ hq,
          getProp_not_nullish _ _ ha, getProp_nullish _ _ hb]

/-- Witness for `unwrap_missing_path_contrast`: an empty-object response
(both unwrap paths missing at the first level below the root). -/
theorem unwrap_missing_path_contrast_witness :
    viewPortfolioUnwrap (JsValue.obj []) = JsValue.obj [] ∧
    listAccountsUnwrap (JsValue.obj []) = Except.error JsError.typeError :=
  ⟨(unwrap_missing_path_contrast (JsValue.obj []) (JsValue.obj [])).1 (Or.inr (Or.inl rfl)),
   (unwrap_missing_path_contrast (JsValue.obj []) (JsValue.obj [])).2 (Or.inr (Or.inl rfl))⟩

/-- C10: `getAccessToken` resolves to an object with exactly the two
string fields `oauth_token` and `oauth_token_secret` (the type of
`getAccessTokenResult`), each the JavaScript string coercion of the
corresponding parsed query-string field; a field the server omitted
coerces to the string `undefined` rather than failing. -/
theorem getAccessToken_string_coercion (results : List (String × QSVal)) :
    (getAccessTokenResult results).oauth_token
      = qsCoerce (qsLookup results ("oauth_token")) ∧
    (getAccessTokenResult results).oauth_token_secret
      = qsCoerce (qsLookup results ("oauth_token_secret")) ∧
    (qsLookup results ("oauth_token") = none →
      (getAccessTokenResult results).oauth_token = "undefined") ∧
    (qsLookup results ("oauth_token_secret") = none →
      (getAccessTokenResult results).oauth_token_secret = "undefined") ∧
    (∀ v, qsLookup results ("oauth_token") = some (QSVal.one v) →
      (getAccessTokenResult results).oauth_token = v) := by
  refine ⟨rfl, rfl, ?_, ?_, ?_⟩
  · intro h; simp [getAccessTokenResult, h, qsCoerce]
  · intro h; simp [getAccessTokenResult, h, qsCoerce]
  · intro v h; simp [getAccessTokenResult, h, qsCoerce]

/-- Witness for `getAccessToken_string_coercion`: a server response
carrying neither token field yields the string `undefined` twice. -/
theorem getAccessToken_string_coercion_witness :
    (getAccessTokenResult []).oauth_token = "undefined" ∧
    (getAccessTokenResult []).oauth_token_secret = "undefined" :=
  ⟨(getAccessToken_string_coercion []).2.2.1 rfl,
   (getAccessToken_string_coercion []).2.2.2.1 rfl⟩

/-- C6: every trading/market endpoint dispatches with the mode-selected
base URL — the production URL exactly when the client's settings say
`prod`, the sandbox (`dev`) URL otherwise.  Every request of a session
is a pure function of the one settings value fixed at construction, so
the selection can only change if the caller mutates `settings` itself.
The conjunction covers all twenty trading/market endpoint builders. -/
theorem endpoint_baseURL_mode_selection (s : ETradeOptions)
    (nonce ts k orderType sym search instType sortOrder marketSession view : String)
    (orderId txId posId alertN : Int) (alertIds : List Int)
    (coid order previewIds : JsValue)
    (accountType expiryType detailFlag storeId sortBy sd ed so mk : Option String)
    (ey em edy spn nos cnt : Option Int) (b1 b2 b3 : Bool)
    (la : Option ListAlertsReq) (lo : ListOrdersReq) (symbols : Symbols) :
    modeBaseURL s = (if s.mode = Mode.prod then s.urls.prod else s.urls.dev) ∧
    (cancelOrderRequest s nonce ts k orderId).baseURL = some (modeBaseURL s) ∧
    (changePreviewedOrderRequest s nonce ts k orderId orderType coid order).baseURL
      = some (modeBaseURL s) ∧
    (deleteAlertRequest s nonce ts (Sum.inl alertN)).baseURL = some (modeBaseURL s) ∧
    (deleteAlertRequest s nonce ts (Sum.inr alertIds)).baseURL = some (modeBaseURL s) ∧
    (getAccountBalancesRequest s nonce ts k accountType instType b1).baseURL
      = some (modeBaseURL s) ∧
    (getOptionChainsRequest s nonce ts sym ey em edy spn nos b1 b2 orderType sortOrder view).baseURL
      = some (modeBaseURL s) ∧
    (getOptionExpireDatesRequest s nonce ts sym expiryType).baseURL = some (modeBaseURL s) ∧
    (getQuotesRequest s nonce ts symbols detailFlag b1 b2 b3).baseURL = some (modeBaseURL s) ∧
    (listAccountsRequest s nonce ts).baseURL = some (modeBaseURL s) ∧
    (listAlertDetailsRequest s nonce ts alertN b1).baseURL = some (modeBaseURL s) ∧
    (listAlertsRequest s nonce ts la).baseURL = some (modeBaseURL s) ∧
    (listOrdersRequest s nonce ts lo).baseURL = some (modeBaseURL s) ∧
    (listOrderDetailsRequest s nonce ts k orderId).baseURL = some (modeBaseURL s) ∧
    (listTransactionDetailsRequest s nonce ts k txId storeId).baseURL = some (modeBaseURL s) ∧
    (listTransactionsRequest s nonce ts k sd ed so mk cnt).baseURL = some (modeBaseURL s) ∧
    (lookupProductRequest s nonce ts search).baseURL = some (modeBaseURL s) ∧
    (placeChangedOrderRequest s nonce ts k orderId orderType coid order previewIds).baseURL
      = some (modeBaseURL s) ∧
    (placeOrderRequest s nonce ts k orderType coid order previewIds).baseURL
      = some (modeBaseURL s) ∧
    (previewOrderRequest s nonce ts k orderType coid order).baseURL = some (modeBaseURL s) ∧
    (viewLotsDetailsRequest s nonce ts k posId).baseURL = some (modeBaseURL s) ∧
    (viewPortfolioRequest s nonce ts k cnt sortBy sortOrder marketSession b1 b2 view).baseURL
      = some (modeBaseURL s) :=
  ⟨rfl, rfl, rfl, rfl, rfl, rfl, rfl, rfl, rfl, rfl, rfl, rfl, rfl, rfl, rfl, rfl,
   rfl, rfl, rfl, rfl, rfl, rfl⟩

/-- C3: `requestToken` dispatches to the fixed OAuth base URL (the
mode-selected `baseURL` is deleted), with the default GET method but a
POST-shaped body payload `oauth_callback=oob`; it is signed with
`token === false`, i.e. no token pair — the signature carries no
`oauth_token` parameter and its signing key ends in an empty token
secret (`consumerSecret&`) — and it resolves to the parsed
`oauth_token` and `oauth_token_secret`, an `oauth_callback_confirmed`
flag that is true exactly when the server returned the string `true`,
and a human-authorization URL embedding the client's consumer key and
the returned token. -/
theorem requestToken_contract (s : ETradeOptions) (nonce ts : String)
    (results : List (String × QSVal)) :
    (requestTokenRequest s nonce ts).baseURL = none ∧
    (requestTokenRequest s nonce ts).url = some (s.urls.oauth ++ "request_token") ∧
    (requestTokenRequest s nonce ts).method = "GET" ∧
    (requestTokenRequest s nonce ts).data
      = some (JsValue.obj [("oauth_callback", JsValue.str ("oob"))]) ∧
    paramLookup ((requestTokenRequest s nonce ts).params.getD []) ("oauth_token") = none ∧
    requestSignature (requestTokenRequest s nonce ts) = some (ParamValue.sig
      { method := "GET"
        url := s.urls.oauth ++ "request_token"
        data := some (JsValue.obj [("oauth_callback", JsValue.str ("oob"))])
        oauthParams := oauthBaseParams s.key nonce ts none
        signingKey := s.secret ++ "&" ++ "" }) ∧
    (requestTokenResult s results).oauth_token = qsCoerce (qsLookup results ("oauth_token")) ∧
    (requestTokenResult s results).oauth_token_secret
      = qsCoerce (qsLookup results ("oauth_token_secret")) ∧
    ((requestTokenResult s results).oauth_callback_confirmed = true ↔
      qsLookup results ("oauth_callback_confirmed") = some (QSVal.one ("true"))) ∧
    (requestTokenResult s results).url
      = "https://us.etrade.com/e/t/etws/authorize?key=" ++ s.key ++ "&token=" ++
          qsCoerce (qsLookup results ("oauth_token")) := by
  refine ⟨rfl, rfl, rfl, rfl, ?_, ?_, rfl, rfl, ?_, rfl⟩
  · rfl
  · rfl
  · simp [requestTokenResult]

/-- C2 counterexample: two concrete failures with an HTTP response
present on which the claim's description fails.  First, a `null`
response body makes the catch block itself throw a TypeError while
evaluating `err.response.data.Error`, so no normalized error reaches the
caller.  Second, a body whose structured `Error.code` is present but `0`
(falsy) does not override: the normalized `code` stays the HTTP status
400 rather than equalling `Error.code`. -/
theorem http_error_normalization_counterexample :
    handleCatch ⟨"Request failed", some ⟨400, "Bad Request", JsValue.null⟩⟩
      = CaughtResult.crash JsError.typeError ∧
    handleCatch ⟨"Request failed", some ⟨400, "Bad Request",
        JsValue.obj [("Error", JsValue.obj
          [("code", JsValue.num 0), ("message", JsValue.str ("zero code"))])]⟩⟩
      = CaughtResult.normalized ⟨JsValue.str ("zero code"), JsValue.num 400,
          JsValue.obj [("Error", JsValue.obj
            [("code", JsValue.num 0), ("message", JsValue.str ("zero code"))])]⟩ :=
  ⟨rfl, rfl⟩

/-- C2 amended: for a dispatched request that fails with an HTTP
response present, the thrown error is the normalized error whose message
is the HTTP status line and whose code is the HTTP status, except when
the response body carries a truthy `Error` field, in which case code
equals `Error.code` when that value is truthy (a present but falsy
`Error.code`, such as 0, does not override) and message equals
`Error.message`; the raw response body is attached as `raw`.  When the
response body itself is null or undefined the handler instead throws a
TypeError.  The two golden cases hold as claimed: status 400 with body
`Error.code` 1032 / `Error.message` "Invalid symbol" yields code 1032
and that message, and status 500 with statusText "Internal Server
Error" and an empty-object body yields code 500 and that status line. -/
theorem http_error_normalization (msg : String) (resp : HttpResponse) :
    (nullish resp.data = true →
      handleCatch ⟨msg, some resp⟩ = CaughtResult.crash JsError.typeError) ∧
    (nullish resp.data = false → truthy (optChain resp.data ("Error")) = false →
      handleCatch ⟨msg, some resp⟩ = CaughtResult.normalized
        ⟨JsValue.str resp.statusText, JsValue.num resp.status, resp.data⟩) ∧
    (nullish resp.data = false → truthy (optChain resp.data ("Error")) = true →
      handleCatch ⟨msg, some resp⟩ = CaughtResult.normalized
        ⟨optChain (optChain resp.data ("Error")) ("message"),
         (if truthy (optChain (optChain resp.data ("Error")) ("code")) then
            optChain (optChain resp.data ("Error")) ("code")
          else JsValue.num resp.status),
         resp.data⟩) ∧
    handleCatch ⟨msg, some ⟨400, "Bad Request", JsValue.obj [("Error", JsValue.obj
        [("code", JsValue.num 1032), ("message", JsValue.str ("Invalid symbol"))])]⟩⟩
      = CaughtResult.normalized ⟨JsValue.str ("Invalid symbol"), JsValue.num 1032,
          JsValue.obj [("Error", JsValue.obj
            [("code", JsValue.num 1032), ("message", JsValue.str ("Invalid symbol"))])]⟩ ∧
    handleCatch ⟨msg, some ⟨500, "Internal Server Error", JsValue.obj []⟩⟩
      = CaughtResult.normalized
          ⟨JsValue.str ("Internal Server Error"), JsValue.num 500, JsValue.obj []⟩ := by
  refine ⟨?_, ?_, ?_, rfl, rfl⟩
  · intro h
    simp only [handleCatch, normalizeResponseError, getProp_nullish _ _ h]
  · intro h1 h2
    simp only [handleCatch, normalizeResponseError, getProp_not_nullish _ _ h1, h2,
      Bool.false_eq_true, if_false]
  · intro h1 h2
    have h3 := truthy_not_nullish _ h2
    simp only [handleCatch, normalizeResponseError, getProp_not_nullish _ _ h1,
      getProp_not_nullish _ _ h3, h2, if_true]

/-- Witness for `http_error_normalization`: a 404 with an empty-object
body normalizes to the status line and status code. -/
theorem http_error_normalization_witness :
    handleCatch ⟨"Request failed", some ⟨404, "Not Found", JsValue.obj []⟩⟩
      = CaughtResult.normalized ⟨JsValue.str ("Not Found"), JsValue.num 404, JsValue.obj []⟩ :=
  (http_error_normalization ("Request failed") ⟨404, "Not Found", JsValue.obj []⟩).2.1 rfl rfl

/-- C1 counterexample: a concrete omit-mode `previewOrder` dispatch on
the default sandbox client.  The transmitted request still carries its
full JSON body in `data` (so it is not body-free), and the
`oauth_signature` in its query parameters was computed over the deep
copy whose `data` had been deleted — its signature input carries no
body at all — so the signature does not cover the intended body
content.  Both halves contradict the claim. -/
theorem omit_mode_counterexample :
    previewSample.data = some (previewOrderBody ("EQ") (JsValue.str ("42")) (JsValue.arr [])) ∧
    previewSample.data ≠ none ∧
    signatureData (requestSignature previewSample) = some none := by
  have h1 : previewSample.data
      = some (previewOrderBody ("EQ") (JsValue.str ("42")) (JsValue.arr [])) := rfl
  refine ⟨h1, ?_, ?_⟩
  · rw [h1]; exact Option.some_ne_none _
  · rfl

/-- C1 amended: for every write-endpoint call dispatched in omit mode
(previewOrder, placeOrder, changePreviewedOrder, placeChangedOrder,
cancelOrder), the transmitted request's query parameters consist of
exactly the oauth_* parameters, but the JSON body is NOT stripped — it
remains on the transmitted request — and the oauth_signature among
those parameters is computed over an internal copy from which the body
was deleted before signing, so the signature covers the request URL and
oauth parameters but not the body content. -/
theorem omit_mode_transmission (s : ETradeOptions)
    (nonce ts k orderType : String) (orderId : Int) (coid order previewIds : JsValue) :
    ((previewOrderRequest s nonce ts k orderType coid order).params.getD []).map Prod.fst
      = oauthKeys ∧
    (previewOrderRequest s nonce ts k orderType coid order).data
      = some (previewOrderBody orderType coid order) ∧
    requestSignature (previewOrderRequest s nonce ts k orderType coid order)
      = some (ParamValue.sig
        { method := "POST"
          url := modeBaseURL s ++ ("accounts/" ++ k ++ "/orders/preview.json")
          data := none
          oauthParams := oauthBaseParams s.key nonce ts (some ⟨s.accessToken, s.accessSecret⟩)
          signingKey := s.secret ++ "&" ++ s.accessSecret }) ∧
    ((placeOrderRequest s nonce ts k orderType coid order previewIds).params.getD []).map Prod.fst
      = oauthKeys ∧
    (placeOrderRequest s nonce ts k orderType coid order previewIds).data
      = some (placeOrderBody orderType coid order previewIds) ∧
    requestSignature (placeOrderRequest s nonce ts k orderType coid order previewIds)
      = some (ParamValue.sig
        { method := "POST"
          url := modeBaseURL s ++ ("accounts/" ++ k ++ "/orders/place.json")
          data := none
          oauthParams := oauthBaseParams s.key nonce ts (some ⟨s.accessToken, s.accessSecret⟩)
          signingKey := s.secret ++ "&" ++ s.accessSecret }) ∧
    ((changePreviewedOrderRequest s nonce ts k orderId orderType coid order).params.getD []).map Prod.fst
      = oauthKeys ∧
    (changePreviewedOrderRequest s nonce ts k orderId orderType coid order).data
      = some (previewOrderBody orderType coid order) ∧
    requestSignature (changePreviewedOrderRequest s nonce ts k orderId orderType coid order)
      = some (ParamValue.sig
        { method := "PUT"
          url := modeBaseURL s ++
            ("accounts/" ++ k ++ "/orders/" ++ toString orderId ++ "/change/preview.json")
          data := none
          oauthParams := oauthBaseParams s.key nonce ts (some ⟨s.accessToken, s.accessSecret⟩)
          signingKey := s.secret ++ "&" ++ s.accessSecret }) ∧
    ((placeChangedOrderRequest s nonce ts k orderId orderType coid order previewIds).params.getD []).map Prod.fst
      = oauthKeys ∧
    (placeChangedOrderRequest s nonce ts k orderId orderType coid order previewIds).data
      = some (placeOrderBody orderType coid order previewIds) ∧
    requestSignature (placeChangedOrderRequest s nonce ts k orderId orderType coid order previewIds)
      = some (ParamValue.sig
        { method := "PUT"
          url := modeBaseURL s ++
            ("accounts/" ++ k ++ "/orders/" ++ toString orderId ++ "/change/place.json")
          data := none
          oauthParams := oauthBaseParams s.key nonce ts (some ⟨s.accessToken, s.accessSecret⟩)
          signingKey := s.secret ++ "&" ++ s.accessSecret }) ∧
    ((cancelOrderRequest s nonce ts k orderId).params.getD []).map Prod.fst = oauthKeys ∧
    (cancelOrderRequest s nonce ts k orderId).data
      = some (JsValue.obj
          [("CancelOrderRequest", JsValue.obj [("orderId", JsValue.num orderId)])]) ∧
    requestSignature (cancelOrderRequest s nonce ts k orderId)
      = some (ParamValue.sig
        { method := "PUT"
          url := modeBaseURL s ++ ("accounts/" ++ k ++ "/orders/cancel.json")
          data := none
          oauthParams := oauthBaseParams s.key nonce ts (some ⟨s.accessToken, s.accessSecret⟩)
          signingKey := s.secret ++ "&" ++ s.accessSecret }) :=
  ⟨rfl, rfl, rfl, rfl, rfl, rfl, rfl, rfl, rfl, rfl, rfl, rfl, rfl, rfl, rfl⟩

/-- C7 counterexample: the concrete sandbox `getQuotes` dispatch for
TSLA,GOOG carries a request body: its `data` field holds the three
default quote flags, contradicting the claim's "no request body". -/
theorem getQuotes_body_counterexample :
    quotesSample.data = some (JsValue.obj
      [("requireEarningsDate", JsValue.bool false),
       ("overrideSymbolCount", JsValue.bool false),
       ("skipMiniOptionsCheck", JsValue.bool false)]) ∧
    quotesSample.data ≠ none := by
  have h1 : quotesSample.data = some (JsValue.obj
      [("requireEarningsDate", JsValue.bool false),
       ("overrideSymbolCount", JsValue.bool false),
       ("skipMiniOptionsCheck", JsValue.bool false)]) := rfl
  exact ⟨h1, by rw [h1]; exact Option.some_ne_none _⟩

/-- C7 amended: `getQuotes` on a sandbox client with symbols TSLA,GOOG
produces a GET request whose URL path is `market/quote/TSLA,GOOG.json`,
with the oauth_* parameters as exactly its query parameters; for every
symbols array the path embeds the symbols joined by commas and a single
string symbol is embedded verbatim.  The request is not body-free,
however: its `data` field carries the quote option flags, which the
HTTP layer transmits as a request body. -/
theorem getQuotes_request_shape (s : ETradeOptions) (nonce ts x : String)
    (symbols : Symbols) (ss : List String)
    (detailFlag : Option String) (b1 b2 b3 : Bool) :
    (getQuotesRequest s nonce ts symbols detailFlag b1 b2 b3).method = "GET" ∧
    (getQuotesRequest s nonce ts symbols detailFlag b1 b2 b3).url
      = some ("market/quote/" ++ symbolsPath symbols ++ ".json") ∧
    ((getQuotesRequest s nonce ts symbols detailFlag b1 b2 b3).params.getD []).map Prod.fst
      = oauthKeys ∧
    (getQuotesRequest s nonce ts symbols detailFlag b1 b2 b3).data
      = some (JsValue.obj
          ([("requireEarningsDate", JsValue.bool b1),
            ("overrideSymbolCount", JsValue.bool b2),
            ("skipMiniOptionsCheck", JsValue.bool b3)] ++
           strField ("detailFlag") detailFlag)) ∧
    symbolsPath (Symbols.one x) = x ∧
    symbolsPath (Symbols.many ss) = String.intercalate (",") ss ∧
    symbolsPath (Symbols.many (["TSLA", "GOOG"])) = "TSLA,GOOG" ∧
    quotesSample.url = some ("market/quote/TSLA,GOOG.json") ∧
    quotesSample.method = "GET" :=
  ⟨rfl, rfl, rfl, rfl, rfl, rfl, rfl, rfl, rfl⟩

end ETradeSpec
